import Mathlib

/-!
Shallow embedding of `src/Topic_Type_Exchanges/stress-test.js` (class
`RabbitStressTest`, the multi-strategy variant the claims cite).

Modelling conventions:
* JS numbers that only ever hold integer values (`target`,
  `totalMessagesSent`) are modelled as `Int`.
* Wall-clock fields (`this.start`, snapshot `start`/`end`/`testDuration`)
  are outside the embedding; the `extended-duration` strategy's clock reads
  are supplied by a stream `elapsed : Nat → Nat` (elapsed milliseconds at the
  k-th while-condition check).
* The broker channel is an oracle `oracle : Nat → Bool` saying whether the
  k-th `channel.publish` call succeeds (a `false` models a thrown publish
  error); `connectToRabbitMQ`/`closeConnection` are modelled by a `connected`
  flag, with connection establishment assumed to succeed.
* `Math.floor(Math.random() * len)` draws are supplied by a stream
  `randoms : Nat → Nat`, reduced `% len`, which ranges over exactly the
  values the source expression can produce when `len ≥ 1` (and produces an
  out-of-range index when `len = 0`, matching the source's `undefined`
  element access).
* The `while` loops are embedded with explicit fuel: a `none` result means
  the loop has not reached its stopping condition within `fuel` iterations.
* `messageSuccessRate`'s `Math.floor((total / target) * 100)` is embedded as
  the exact rational floor `Int.fdiv (total * 100) target` (for every value
  reachable in the claims the double computation and the rational floor
  agree).
-/

namespace StressTest

/-- The message template object; the source only ever builds `{ type: ... }`
objects and treats the payload opaquely. -/
structure Message where
  type : String
deriving DecidableEq

/-- An exchange record as supplied by the caller (the opaque `arguments` map
carries no behaviour and is omitted). -/
structure Exchange where
  name : String
  vhost : String
  type : String
  durable : Bool
  auto_delete : Bool
  internal : Bool
deriving DecidableEq

/-- A binding record as supplied by the caller. -/
structure Binding where
  source : String
  vhost : String
  destination : String
  destination_type : String
  routing_key : String
deriving DecidableEq

/-- One compiled dispatch entry, as pushed by `prepTests` onto
`this.testMessages`. -/
structure TestMessage where
  exchangeName : String
  exchangeType : String
  rabbitAddress : String
  key : String
  message : Message
deriving DecidableEq

/-- One snapshot record as pushed by `takeSnapShot` (wall-clock fields
`start`/`end`/`testDuration` omitted, see the module comment). -/
structure SnapShot where
  rabbitAddress : String
  exchanges : List (String × Exchange)
  bindings : List Binding
  testMessages : List TestMessage
  testType : String
  totalMessagesSent : Int
  target : Int
  messageSuccessRate : Int
deriving DecidableEq

/-- The mutable instance state of a `RabbitStressTest` object.  `connected`
models the presence of `this.connection`/`this.channel`. -/
structure Session where
  rabbitAddress : String
  exchanges : List (String × Exchange)
  bindings : List Binding
  readyToTest : Bool
  testMessages : List TestMessage
  totalMessagesSent : Int
  snapShots : List SnapShot
  message : Message
  target : Int
  connected : Bool
deriving DecidableEq

/-- `this.exchanges[exc.name] = exc`: JS object insertion, overwriting an
existing key in place and appending a fresh key in insertion order. -/
def insertExc (m : List (String × Exchange)) (exc : Exchange) : List (String × Exchange) :=
  if m.any (fun p => p.1 == exc.name) then
    m.map (fun p => if p.1 == exc.name then (p.1, exc) else p)
  else
    m ++ [(exc.name, exc)]

/-- `exchanges.forEach((exc) => { this.exchanges[exc.name] = exc; })`. -/
def buildExchangeMap (excs : List Exchange) : List (String × Exchange) :=
  excs.foldl insertExc []

/-- `this.exchanges[name]` lookup; `none` models `undefined`. -/
def lookupExc (m : List (String × Exchange)) (name : String) : Option Exchange :=
  (m.find? (fun p => p.1 == name)).map (fun p => p.2)

/-- The constructor `new RabbitStressTest(rabbitAddress, exchanges, bindings,
message, target)`.  `message`/`target` are optional parameters; `none` models
a falsy argument (omitted/`undefined`), and a provided `target` of `0` is
falsy in JS, hence also defaults to `1000`. -/
def mkSession (rabbitAddress : String) (exchanges : List Exchange) (bindings : List Binding)
    (message : Option Message) (target : Option Int) : Session where
  rabbitAddress := rabbitAddress
  exchanges := buildExchangeMap exchanges
  bindings := bindings
  readyToTest := false
  testMessages := []
  totalMessagesSent := 0
  snapShots := []
  message := message.getD { type := "Stress Test" }
  target :=
    match target with
    | some t => if t = 0 then 1000 else t
    | none => 1000
  connected := false

/-- The dispatch entry `prepTests` pushes for one binding whose source
exchange resolved to `exc`. -/
def entryOfBinding (rabbitAddress : String) (msg : Message) (exc : Exchange)
    (b : Binding) : TestMessage where
  exchangeName := b.source
  exchangeType := exc.type
  rabbitAddress := rabbitAddress
  key := b.routing_key
  message := msg

/-- The `bindings.forEach(...)` body of `prepTests`: entries are pushed one
binding at a time; a binding whose `source` is absent from the exchange map
makes `this.exchanges[binding.source].type` throw a TypeError, so the
`error` result carries the entries already pushed before the faulty
binding. -/
def buildEntries (lookup : String → Option Exchange) (rabbitAddress : String)
    (msg : Message) : List Binding → Except (List TestMessage) (List TestMessage)
  | [] => .ok []
  | b :: rest =>
    match lookup b.source with
    | none => .error []
    | some exc =>
      match buildEntries lookup rabbitAddress msg rest with
      | .ok tl => .ok (entryOfBinding rabbitAddress msg exc b :: tl)
      | .error tl => .error (entryOfBinding rabbitAddress msg exc b :: tl)

/-- `prepTests()`: connects (modelled as always succeeding), pushes one entry
per binding onto the existing `this.testMessages`, then sets
`this.readyToTest = true`.  A thrown TypeError (missing source exchange)
aborts the `forEach` after the entries already pushed, leaving
`readyToTest` untouched; the `error` result carries that state. -/
def prepTests (s : Session) : Except Session Session :=
  match buildEntries (lookupExc s.exchanges) s.rabbitAddress s.message s.bindings with
  | .ok es =>
      .ok { s with connected := true, testMessages := s.testMessages ++ es, readyToTest := true }
  | .error es =>
      .error { s with connected := true, testMessages := s.testMessages ++ es }

/-- `takeSnapShot(startDate, type)`: pushes a snapshot of the current state
(wall-clock fields omitted). -/
def takeSnapShot (testType : String) (s : Session) : Session :=
  { s with
    snapShots := s.snapShots ++ [{
      rabbitAddress := s.rabbitAddress
      exchanges := s.exchanges
      bindings := s.bindings
      testMessages := s.testMessages
      testType := testType
      totalMessagesSent := s.totalMessagesSent
      target := s.target
      messageSuccessRate := Int.fdiv (s.totalMessagesSent * 100) s.target }] }

/-- `closeConnection()`. -/
def closeConnection (s : Session) : Session :=
  { s with connected := false }

/-- `updateRabbitStressTest(rabbitAddress, exchanges, bindings, message)`;
`none` models a falsy (omitted) argument.  The field assignments are applied
in source statement order. -/
def updateRabbitStressTest (rabbitAddress : Option String) (exchanges : Option (List Exchange))
    (bindings : Option (List Binding)) (message : Option Message) (s : Session) : Session :=
  let s1 := match rabbitAddress with
    | some a => { s with rabbitAddress := a }
    | none => s
  let s2 := match exchanges with
    | some ex => { s1 with exchanges := buildExchangeMap ex }
    | none => s1
  let s3 := match bindings with
    | some bs => { s2 with bindings := bs }
    | none => s2
  let s4 := { s3 with readyToTest := false }
  let s5 := { s4 with testMessages := [] }
  let s6 := { s5 with totalMessagesSent := 0 }
  match message with
  | some m => { s6 with message := m }
  | none => s6

/-- A JS value passed to `updateTarget`; `num` carries the integer-valued
numbers the claims exercise (the source never handles `NaN`, which is the
one falsy nonzero number). -/
inductive JSVal where
  | num (n : Int)
  | str (s : String)
  | undef
deriving DecidableEq

/-- JS truthiness for the modelled values. -/
def JSVal.truthy : JSVal → Bool
  | .num n => n != 0
  | .str s => s != ""
  | .undef => false

/-- `typeof target === 'number'`. -/
def JSVal.isNumber : JSVal → Bool
  | .num _ => true
  | _ => false

/-- `updateTarget(target)`: `if (target && typeof target === 'number')
this.target = target;`. -/
def updateTarget (target : JSVal) (s : Session) : Session :=
  if target.truthy && target.isNumber then
    match target with
    | .num n => { s with target := n }
    | _ => s
  else s

/-- The arguments of one successful `publishMessage(exchangeName, key,
msgObj)` call, in call order. -/
structure PubRec where
  exchangeName : String
  key : String
  message : Message
deriving DecidableEq

/-- The state threaded through a run: the live `this.totalMessagesSent`, the
index of the next `channel.publish` attempt in the oracle, and the successful
publish calls so far (in order). -/
structure RunState where
  count : Int
  pubIndex : Nat
  trace : List PubRec
deriving DecidableEq

/-- `publishMessage(m.exchangeName, m.key, m.message)`: the counter is
incremented only after `channel.publish` succeeds; a failing publish throws,
leaving the counter untouched. -/
def publishOne (oracle : Nat → Bool) (m : TestMessage) (st : RunState) :
    Except RunState RunState :=
  if oracle st.pubIndex then
    .ok { count := st.count + 1
          pubIndex := st.pubIndex + 1
          trace := st.trace ++ [{ exchangeName := m.exchangeName, key := m.key,
                                  message := m.message }] }
  else
    .error { st with pubIndex := st.pubIndex + 1 }

/-- `for (const msg of this.testMessages) { this.publishMessage(...) }`:
one full pass over the plan in order, aborted by the first thrown publish. -/
def publishPass (oracle : Nat → Bool) : List TestMessage → RunState → Except RunState RunState
  | [], st => .ok st
  | m :: rest, st =>
    match publishOne oracle m st with
    | .ok st2 => publishPass oracle rest st2
    | .error st2 => .error st2

/-- The `round-robin` loop: `while (this.totalMessagesSent <= this.target)`
do one full pass.  `none` = the loop has not stopped within `fuel`
iterations. -/
def rrLoop (oracle : Nat → Bool) (plan : List TestMessage) (target : Int) :
    Nat → RunState → Option (Except RunState RunState)
  | 0, _ => none
  | fuel + 1, st =>
    if st.count ≤ target then
      match publishPass oracle plan st with
      | .ok st2 => rrLoop oracle plan target fuel st2
      | .error st2 => some (.error st2)
    else
      some (.ok st)

/-- The `random` loop: each iteration draws a fresh index and publishes that
single entry.  An out-of-range index (only possible for an empty plan) models
the TypeError from indexing `undefined`. -/
def randomLoop (oracle : Nat → Bool) (randoms : Nat → Nat) (plan : List TestMessage)
    (target : Int) : Nat → Nat → RunState → Option (Except RunState RunState)
  | 0, _, _ => none
  | fuel + 1, iter, st =>
    if st.count ≤ target then
      match plan[randoms iter % plan.length]? with
      | none => some (.error st)
      | some m =>
        match publishOne oracle m st with
        | .ok st2 => randomLoop oracle randoms plan target fuel (iter + 1) st2
        | .error st2 => some (.error st2)
    else
      some (.ok st)

/-- The `extended-duration` loop: `while (Date.now() - this.start <
this.testDuration)` do one full pass; `elapsed k` is the clock reading at the
k-th condition check. -/
def extLoop (oracle : Nat → Bool) (elapsed : Nat → Nat) (plan : List TestMessage)
    (duration : Nat) : Nat → Nat → RunState → Option (Except RunState RunState)
  | 0, _, _ => none
  | fuel + 1, k, st =>
    if elapsed k < duration then
      match publishPass oracle plan st with
      | .ok st2 => extLoop oracle elapsed plan duration fuel (k + 1) st2
      | .error st2 => some (.error st2)
    else
      some (.ok st)

/-- The `single-binding` loop: the index was drawn once before the loop;
every iteration publishes that one entry. -/
def sbLoop (oracle : Nat → Bool) (plan : List TestMessage) (target : Int) (idx : Nat) :
    Nat → RunState → Option (Except RunState RunState)
  | 0, _ => none
  | fuel + 1, st =>
    if st.count ≤ target then
      match plan[idx]? with
      | none => some (.error st)
      | some m =>
        match publishOne oracle m st with
        | .ok st2 => sbLoop oracle plan target idx fuel st2
        | .error st2 => some (.error st2)
    else
      some (.ok st)

/-- The outcome of one `runTest(type)` call: the session state after the call
returns (normally or by rethrow), the successful publish calls of this run in
order, and whether the call returned normally (`ok = false` models the error
rethrown to the caller). -/
structure RunResult where
  session : Session
  published : List PubRec
  ok : Bool
deriving DecidableEq

/-- The `switch (type)` statement of `runTest`, dispatching to one strategy
loop over the compiled plan (the `default` case only logs and publishes
nothing). -/
def strategyLoop (oracle : Nat → Bool) (randoms : Nat → Nat) (elapsed : Nat → Nat)
    (fuel : Nat) (type : String) (plan : List TestMessage) (target : Int)
    (st0 : RunState) : Option (Except RunState RunState) :=
  if type = "round-robin" then
    rrLoop oracle plan target fuel st0
  else if type = "random" then
    randomLoop oracle randoms plan target fuel 0 st0
  else if type = "extended-duration" then
    extLoop oracle elapsed plan 3600000 fuel 0 st0
  else if type = "single-binding" then
    sbLoop oracle plan target (randoms 0 % plan.length) fuel st0
  else
    some (.ok st0)

/-- `runTest(type)`.  Not-ready short-circuits as a no-op; otherwise the
connection is (re-)established, the strategy loop runs, and on normal
completion `takeSnapShot` is called, the connection closed, and the counter
reset to `0`.  A thrown publish error skips snapshot, close and reset and is
rethrown.  The unknown-`type` default case only logs, then still snapshots,
closes and resets.  `none` = the strategy loop exceeded `fuel`. -/
def runTest (oracle : Nat → Bool) (randoms : Nat → Nat) (elapsed : Nat → Nat)
    (fuel : Nat) (type : String) (s : Session) : Option RunResult :=
  if s.readyToTest = false then some { session := s, published := [], ok := true }
  else
    let sc : Session := { s with connected := true }
    let st0 : RunState := { count := sc.totalMessagesSent, pubIndex := 0, trace := [] }
    match strategyLoop oracle randoms elapsed fuel type sc.testMessages sc.target st0 with
    | none => none
    | some (.error st) =>
        some { session := { sc with totalMessagesSent := st.count }
               published := st.trace
               ok := false }
    | some (.ok st) =>
        let s1 := takeSnapShot type { sc with totalMessagesSent := st.count }
        let s2 := closeConnection s1
        some { session := { s2 with totalMessagesSent := 0 }
               published := st.trace
               ok := true }

/-- The argument record a successful publish of plan entry `m` contributes to
the trace. -/
def pubRecOf (m : TestMessage) : PubRec :=
  { exchangeName := m.exchangeName, key := m.key, message := m.message }

/-- The run state carried by either outcome of a loop step. -/
def exState : Except RunState RunState → RunState
  | .ok st => st
  | .error st => st

/-- Counter minus trace length: the quantity "`totalMessagesSent` grew by
exactly the number of successful publishes". -/
def stGain (st : RunState) : Int :=
  st.count - st.trace.length

theorem publishOne_gain (o : Nat → Bool) (m : TestMessage) (st : RunState) :
    stGain (exState (publishOne o m st)) = stGain st := by
  unfold publishOne
  split <;> simp [exState, stGain]

theorem publishPass_gain (o : Nat → Bool) :
    ∀ (plan : List TestMessage) (st : RunState),
      stGain (exState (publishPass o plan st)) = stGain st
  | [], st => rfl
  | m :: rest, st => by
    have h1 := publishOne_gain o m st
    unfold publishPass
    cases hp : publishOne o m st with
    | ok st2 =>
      rw [hp] at h1
      simpa [exState] using (publishPass_gain o rest st2).trans h1
    | error st2 =>
      rw [hp] at h1
      simpa [exState] using h1

theorem rrLoop_gain (o : Nat → Bool) (plan : List TestMessage) (target : Int) :
    ∀ (fuel : Nat) (st : RunState) (r : Except RunState RunState),
      rrLoop o plan target fuel st = some r → stGain (exState r) = stGain st := by
  intro fuel
  induction fuel with
  | zero => intro st r h; simp [rrLoop] at h
  | succ n ih =>
    intro st r h
    rw [rrLoop] at h
    split at h
    · have h1 := publishPass_gain o plan st
      cases hp : publishPass o plan st with
      | ok st2 =>
        rw [hp] at h h1
        exact (ih st2 r h).trans h1
      | error st2 =>
        rw [hp] at h h1
        cases h
        simpa [exState] using h1
    · cases h
      rfl

theorem randomLoop_gain (o : Nat → Bool) (randoms : Nat → Nat)
    (plan : List TestMessage) (target : Int) :
    ∀ (fuel iter : Nat) (st : RunState) (r : Except RunState RunState),
      randomLoop o randoms plan target fuel iter st = some r →
        stGain (exState r) = stGain st := by
  intro fuel
  induction fuel with
  | zero => intro iter st r h; simp [randomLoop] at h
  | succ n ih =>
    intro iter st r h
    rw [randomLoop] at h
    split at h
    · split at h
      · cases h
        rfl
      · rename_i m hm
        have h1 := publishOne_gain o m st
        split at h
        · rename_i st2 hp
          rw [hp] at h1
          exact (ih (iter + 1) st2 r h).trans h1
        · rename_i st2 hp
          rw [hp] at h1
          cases h
          simpa [exState] using h1
    · cases h
      rfl

theorem extLoop_gain (o : Nat → Bool) (elapsed : Nat → Nat)
    (plan : List TestMessage) (duration : Nat) :
    ∀ (fuel k : Nat) (st : RunState) (r : Except RunState RunState),
      extLoop o elapsed plan duration fuel k st = some r →
        stGain (exState r) = stGain st := by
  intro fuel
  induction fuel with
  | zero => intro k st r h; simp [extLoop] at h
  | succ n ih =>
    intro k st r h
    rw [extLoop] at h
    split at h
    · have h1 := publishPass_gain o plan st
      cases hp : publishPass o plan st with
      | ok st2 =>
        rw [hp] at h h1
        exact (ih (k + 1) st2 r h).trans h1
      | error st2 =>
        rw [hp] at h h1
        cases h
        simpa [exState] using h1
    · cases h
      rfl

theorem sbLoop_gain (o : Nat → Bool) (plan : List TestMessage) (target : Int) (idx : Nat) :
    ∀ (fuel : Nat) (st : RunState) (r : Except RunState RunState),
      sbLoop o plan target idx fuel st = some r → stGain (exState r) = stGain st := by
  intro fuel
  induction fuel with
  | zero => intro st r h; simp [sbLoop] at h
  | succ n ih =>
    intro st r h
    rw [sbLoop] at h
    split at h
    · split at h
      · cases h
        rfl
      · rename_i m hm
        have h1 := publishOne_gain o m st
        split at h
        · rename_i st2 hp
          rw [hp] at h1
          exact (ih st2 r h).trans h1
        · rename_i st2 hp
          rw [hp] at h1
          cases h
          simpa [exState] using h1
    · cases h
      rfl

theorem strategyLoop_gain (o : Nat → Bool) (randoms elapsed : Nat → Nat)
    (fuel : Nat) (type : String) (plan : List TestMessage) (target : Int)
    (st0 : RunState) (r : Except RunState RunState)
    (h : strategyLoop o randoms elapsed fuel type plan target st0 = some r) :
    stGain (exState r) = stGain st0 := by
  unfold strategyLoop at h
  split_ifs at h with h1 h2 h3 h4
  · exact rrLoop_gain o plan target fuel st0 r h
  · exact randomLoop_gain o randoms plan target fuel 0 st0 r h
  · exact extLoop_gain o elapsed plan 3600000 fuel 0 st0 r h
  · exact sbLoop_gain o plan target (randoms 0 % plan.length) fuel st0 r h
  · cases h
    rfl

/-- Shape of a `runTest` call whose strategy loop completes normally: a
snapshot of the run is appended, the connection closed, and the counter
reset. -/
theorem runTest_eq_of_ok (o : Nat → Bool) (randoms elapsed : Nat → Nat) (fuel : Nat)
    (type : String) (s : Session) (st2 : RunState)
    (hready : s.readyToTest = true)
    (h : strategyLoop o randoms elapsed fuel type s.testMessages s.target
        { count := s.totalMessagesSent, pubIndex := 0, trace := [] } = some (.ok st2)) :
    runTest o randoms elapsed fuel type s =
      some { session :=
               { s with
                 connected := false,
                 totalMessagesSent := 0,
                 snapShots := s.snapShots ++ [{
                   rabbitAddress := s.rabbitAddress,
                   exchanges := s.exchanges,
                   bindings := s.bindings,
                   testMessages := s.testMessages,
                   testType := type,
                   totalMessagesSent := st2.count,
                   target := s.target,
                   messageSuccessRate := Int.fdiv (st2.count * 100) s.target }] }
             published := st2.trace
             ok := true } := by
  unfold runTest
  rw [hready]
  dsimp only
  rw [h]
  rfl

/-- Shape of a `runTest` call whose strategy loop throws: the error is
rethrown, the partial counter kept, and no snapshot taken. -/
theorem runTest_eq_of_error (o : Nat → Bool) (randoms elapsed : Nat → Nat) (fuel : Nat)
    (type : String) (s : Session) (st2 : RunState)
    (hready : s.readyToTest = true)
    (h : strategyLoop o randoms elapsed fuel type s.testMessages s.target
        { count := s.totalMessagesSent, pubIndex := 0, trace := [] } = some (.error st2)) :
    runTest o randoms elapsed fuel type s =
      some { session := { s with
                          connected := true,
                          totalMessagesSent := st2.count }
             published := st2.trace
             ok := false } := by
  unfold runTest
  rw [hready]
  dsimp only
  rw [h]
  rfl

/-- A `runTest` call whose strategy loop runs out of fuel yields no result. -/
theorem runTest_eq_of_none (o : Nat → Bool) (randoms elapsed : Nat → Nat) (fuel : Nat)
    (type : String) (s : Session)
    (hready : s.readyToTest = true)
    (h : strategyLoop o randoms elapsed fuel type s.testMessages s.target
        { count := s.totalMessagesSent, pubIndex := 0, trace := [] } = none) :
    runTest o randoms elapsed fuel type s = none := by
  unfold runTest
  rw [hready]
  dsimp only
  rw [h]
  rfl

/-- Every `runTest` result is produced by one of the three shapes above. -/
theorem runTest_inv (o : Nat → Bool) (randoms elapsed : Nat → Nat) (fuel : Nat)
    (type : String) (s : Session) (r : RunResult)
    (hready : s.readyToTest = true)
    (h : runTest o randoms elapsed fuel type s = some r) :
    ∃ st2,
      st2.trace = r.published ∧
      (r.ok = true →
        strategyLoop o randoms elapsed fuel type s.testMessages s.target
            { count := s.totalMessagesSent, pubIndex := 0, trace := [] } =
          some (.ok st2) ∧
        r.session.totalMessagesSent = 0 ∧
        r.session.snapShots = s.snapShots ++ [{
          rabbitAddress := s.rabbitAddress,
          exchanges := s.exchanges,
          bindings := s.bindings,
          testMessages := s.testMessages,
          testType := type,
          totalMessagesSent := st2.count,
          target := s.target,
          messageSuccessRate := Int.fdiv (st2.count * 100) s.target }]) ∧
      (r.ok = false →
        strategyLoop o randoms elapsed fuel type s.testMessages s.target
            { count := s.totalMessagesSent, pubIndex := 0, trace := [] } =
          some (.error st2) ∧
        r.session.totalMessagesSent = st2.count ∧
        r.session.snapShots = s.snapShots) := by
  unfold runTest at h
  rw [hready] at h
  dsimp only at h
  cases hs : strategyLoop o randoms elapsed fuel type s.testMessages s.target
      { count := s.totalMessagesSent, pubIndex := 0, trace := [] } with
  | none => rw [hs] at h; cases h
  | some ex =>
    rw [hs] at h
    cases ex with
    | ok st2 =>
      cases h
      refine ⟨st2, rfl, fun _ => ⟨rfl, rfl, rfl⟩, fun hf => ?_⟩
      simp at hf
    | error st2 =>
      cases h
      refine ⟨st2, rfl, fun ht => ?_, fun _ => ⟨rfl, rfl, rfl⟩⟩
      simp at ht

/-- With an always-succeeding channel, one pass publishes every plan entry in
order, incrementing the counter by the plan length. -/
theorem publishPass_allOk :
    ∀ (plan : List TestMessage) (st : RunState),
      publishPass (fun _ => true) plan st =
        .ok { count := st.count + plan.length
              pubIndex := st.pubIndex + plan.length
              trace := st.trace ++ plan.map pubRecOf }
  | [], st => by simp [publishPass]
  | m :: rest, st => by
    rw [publishPass]
    have h1 : publishOne (fun _ => true) m st =
        .ok { count := st.count + 1, pubIndex := st.pubIndex + 1,
              trace := st.trace ++ [pubRecOf m] } := rfl
    rw [h1]
    dsimp only
    rw [publishPass_allOk rest]
    simp [List.length_cons]
    constructor
    · omega
    · omega

theorem publishOne_allOk (m : TestMessage) (st : RunState) :
    publishOne (fun _ => true) m st =
      .ok { count := st.count + 1, pubIndex := st.pubIndex + 1,
            trace := st.trace ++ [pubRecOf m] } := rfl

/-- Once the counter exceeds the target, the round-robin loop stops at the
next check. -/
theorem rrLoop_exit (o : Nat → Bool) (plan : List TestMessage) (target : Int)
    (fuel : Nat) (st : RunState) (h1 : 1 ≤ fuel) (h2 : ¬ st.count ≤ target) :
    rrLoop o plan target fuel st = some (.ok st) := by
  cases fuel with
  | zero => omega
  | succ n => rw [rrLoop, if_neg h2]

theorem randomLoop_exit (o : Nat → Bool) (randoms : Nat → Nat) (plan : List TestMessage)
    (target : Int) (fuel iter : Nat) (st : RunState)
    (h1 : 1 ≤ fuel) (h2 : ¬ st.count ≤ target) :
    randomLoop o randoms plan target fuel iter st = some (.ok st) := by
  cases fuel with
  | zero => omega
  | succ n => rw [randomLoop, if_neg h2]

theorem sbLoop_exit (o : Nat → Bool) (plan : List TestMessage) (target : Int) (idx : Nat)
    (fuel : Nat) (st : RunState) (h1 : 1 ≤ fuel) (h2 : ¬ st.count ≤ target) :
    sbLoop o plan target idx fuel st = some (.ok st) := by
  cases fuel with
  | zero => omega
  | succ n => rw [sbLoop, if_neg h2]

/-- With a non-empty plan and an always-succeeding channel, the round-robin
loop terminates; the final counter exceeds the target by at most one plan
length (the loop condition is checked only between full passes). -/
theorem rrLoop_allOk (plan : List TestMessage) (target : Int) (hplan : plan ≠ []) :
    ∀ (fuel : Nat) (st : RunState), 1 ≤ fuel → target + 2 ≤ st.count + fuel →
      ∃ st2, rrLoop (fun _ => true) plan target fuel st = some (.ok st2) ∧
        target < st2.count ∧
        (st.count ≤ target → st2.count ≤ target + plan.length) ∧
        (¬ st.count ≤ target → st2 = st) := by
  intro fuel
  induction fuel with
  | zero => intro st h1 h2; omega
  | succ n ih =>
    intro st h1 h2
    by_cases hc : st.count ≤ target
    · have hlen : 0 < plan.length := List.length_pos.mpr hplan
      have h1' : 1 ≤ n := by omega
      obtain ⟨st2, hrun, hgt, hle, hstay⟩ := ih
        { count := st.count + plan.length, pubIndex := st.pubIndex + plan.length,
          trace := st.trace ++ plan.map pubRecOf } h1' (by dsimp only; omega)
      refine ⟨st2, ?_, hgt, fun _ => ?_, fun hnc => absurd hc hnc⟩
      · rw [rrLoop, if_pos hc, publishPass_allOk plan st]
        exact hrun
      · by_cases hc2 : st.count + (plan.length : Int) ≤ target
        · exact hle hc2
        · have := hstay hc2
          subst this
          dsimp only
          omega
    · exact ⟨st, rrLoop_exit _ plan target _ st h1 hc, by omega,
        fun h => absurd h hc, fun _ => rfl⟩

/-- With a non-empty plan and an always-succeeding channel, the random loop
terminates with the counter exactly one past the target (it publishes one
message per condition check). -/
theorem randomLoop_allOk (randoms : Nat → Nat) (plan : List TestMessage) (target : Int)
    (hplan : plan ≠ []) :
    ∀ (fuel iter : Nat) (st : RunState), st.count ≤ target → target + 2 ≤ st.count + fuel →
      ∃ st2, randomLoop (fun _ => true) randoms plan target fuel iter st = some (.ok st2) ∧
        st2.count = target + 1 := by
  intro fuel
  induction fuel with
  | zero => intro iter st hc h2; omega
  | succ n ih =>
    intro iter st hc h2
    have hlen : 0 < plan.length := List.length_pos.mpr hplan
    have hidx : randoms iter % plan.length < plan.length := Nat.mod_lt _ hlen
    rw [randomLoop, if_pos hc, List.getElem?_eq_getElem hidx]
    dsimp only
    rw [publishOne_allOk]
    dsimp only
    by_cases hc2 : st.count + 1 ≤ target
    · exact ih (iter + 1)
        { count := st.count + 1, pubIndex := st.pubIndex + 1,
          trace := st.trace ++ [pubRecOf (plan[randoms iter % plan.length])] }
        hc2 (by dsimp only; omega)
    · have hn : 1 ≤ n := by omega
      refine ⟨_, randomLoop_exit _ randoms plan target n (iter + 1) _ hn (by dsimp only; omega), ?_⟩
      dsimp only
      omega

/-- With a valid drawn index and an always-succeeding channel, the
single-binding loop terminates with the counter exactly one past the target,
having published exactly that plan entry each time. -/
theorem sbLoop_allOk (plan : List TestMessage) (target : Int) (idx : Nat) (m : TestMessage)
    (hm : plan[idx]? = some m) :
    ∀ (fuel : Nat) (st : RunState), st.count ≤ target → target + 2 ≤ st.count + fuel →
      ∃ st2, sbLoop (fun _ => true) plan target idx fuel st = some (.ok st2) ∧
        st2.count = target + 1 ∧
        st2.trace = st.trace ++ List.replicate (target + 1 - st.count).toNat (pubRecOf m) := by
  intro fuel
  induction fuel with
  | zero => intro st hc h2; omega
  | succ n ih =>
    intro st hc h2
    rw [sbLoop, if_pos hc, hm]
    dsimp only
    rw [publishOne_allOk]
    dsimp only
    by_cases hc2 : st.count + 1 ≤ target
    · obtain ⟨st2, hrun, hcnt, htr⟩ := ih
        { count := st.count + 1, pubIndex := st.pubIndex + 1,
          trace := st.trace ++ [pubRecOf m] } hc2 (by dsimp only; omega)
      refine ⟨st2, hrun, hcnt, ?_⟩
      rw [htr]
      dsimp only
      have hk : (target + 1 - st.count).toNat = (target + 1 - (st.count + 1)).toNat + 1 := by
        omega
      rw [hk, List.replicate_succ]
      simp [List.append_assoc]
    · have hn : 1 ≤ n := by omega
      refine ⟨_, sbLoop_exit _ plan target idx n _ hn (by dsimp only; omega), by dsimp only; omega, ?_⟩
      dsimp only
      have hk : (target + 1 - st.count).toNat = 1 := by omega
      rw [hk]
      simp

/-- With an empty plan a round-robin pass publishes nothing, so the loop
condition never changes and the loop never stops, whatever the fuel. -/
theorem rrLoop_nil (o : Nat → Bool) (target : Int) :
    ∀ (fuel : Nat) (st : RunState), st.count ≤ target →
      rrLoop o [] target fuel st = none := by
  intro fuel
  induction fuel with
  | zero => intro st hc; rfl
  | succ n ih =>
    intro st hc
    rw [rrLoop, if_pos hc]
    exact ih st hc

theorem strategyLoop_rr (o : Nat → Bool) (randoms elapsed : Nat → Nat) (fuel : Nat)
    (plan : List TestMessage) (target : Int) (st0 : RunState) :
    strategyLoop o randoms elapsed fuel "round-robin" plan target st0 =
      rrLoop o plan target fuel st0 := rfl

theorem strategyLoop_random (o : Nat → Bool) (randoms elapsed : Nat → Nat) (fuel : Nat)
    (plan : List TestMessage) (target : Int) (st0 : RunState) :
    strategyLoop o randoms elapsed fuel "random" plan target st0 =
      randomLoop o randoms plan target fuel 0 st0 := rfl

theorem strategyLoop_sb (o : Nat → Bool) (randoms elapsed : Nat → Nat) (fuel : Nat)
    (plan : List TestMessage) (target : Int) (st0 : RunState) :
    strategyLoop o randoms elapsed fuel "single-binding" plan target st0 =
      sbLoop o plan target (randoms 0 % plan.length) fuel st0 := rfl

/-! Concrete data used by the scenario claims and witnesses: the topology
`exchanges = [{name: "X", type: "topic"}]`, `bindings = [{source: "X",
routing_key: "k"}]` of the spec's scenarios, plus a second binding with an
unknown source for the error claims. -/

def excX : Exchange :=
  { name := "X", vhost := "/", type := "topic", durable := true,
    auto_delete := false, internal := false }

def bindXk : Binding :=
  { source := "X", vhost := "/", destination := "Q", destination_type := "queue",
    routing_key := "k" }

def bindYk : Binding :=
  { source := "Y", vhost := "/", destination := "Q2", destination_type := "queue",
    routing_key := "k2" }

def entryXk : TestMessage :=
  { exchangeName := "X", exchangeType := "topic", rabbitAddress := "amqp://localhost",
    key := "k", message := { type := "Stress Test" } }

def pubXk : PubRec :=
  { exchangeName := "X", key := "k", message := { type := "Stress Test" } }

def zeroStream : Nat → Nat := fun _ => 0

def allOk : Nat → Bool := fun _ => true

/-- A channel that accepts the first two publishes and fails from the third
attempt on. -/
def failFrom2 : Nat → Bool := fun k => decide (k < 2)

def sessionT5 : Session := mkSession "amqp://localhost" [excX] [bindXk] none (some 5)

def preppedT5 : Session :=
  { sessionT5 with connected := true, testMessages := [entryXk], readyToTest := true }

def sessionT3 : Session := mkSession "amqp://localhost" [excX] [bindXk] none (some 3)

def preppedT3 : Session :=
  { sessionT3 with connected := true, testMessages := [entryXk], readyToTest := true }

/-- The state `runTest` leaves behind when the channel dies after two
publishes: the partial count survives into the next run. -/
def abortedT3 : Session := { preppedT3 with totalMessagesSent := 2 }

def sessionMissing : Session :=
  mkSession "amqp://localhost" [excX] [bindXk, bindYk] none (some 5)

instance instDecEqExcept {ε α : Type} [DecidableEq ε] [DecidableEq α] :
    DecidableEq (Except ε α) := fun a b =>
  match a, b with
  | .ok x, .ok y =>
    match decEq x y with
    | isTrue h => isTrue (by rw [h])
    | isFalse h => isFalse (by intro hh; cases hh; exact h rfl)
  | .error x, .error y =>
    match decEq x y with
    | isTrue h => isTrue (by rw [h])
    | isFalse h => isFalse (by intro hh; cases hh; exact h rfl)
  | .ok _, .error _ => isFalse (by intro hh; cases hh)
  | .error _, .ok _ => isFalse (by intro hh; cases hh)

/-- C8: with one topic exchange "X", one binding with routing key "k",
target 5 and strategy round-robin, the compiled plan has length 1, the run
publishes "k" exactly six times (counter 0 → 6, stopping because 6 > 5), and
the recorded snapshot reports `totalMessagesSent = 6` and a success rate of
`floor(6/5·100) = 120` — integer floor division, not clamped to 100. -/
theorem roundRobin_scenario_target5 :
    prepTests sessionT5 = .ok preppedT5 ∧
    preppedT5.testMessages.length = 1 ∧
    (runTest allOk zeroStream zeroStream 10 "round-robin" preppedT5).map
        (fun r => (r.ok, r.published,
          r.session.snapShots.map
            (fun sn => (sn.totalMessagesSent, sn.messageSuccessRate)))) =
      some (true, List.replicate 6 pubXk, [(6, 120)]) := by
  decide

/-- C2 counterexample: `updateTarget(-5)` does not leave the target
unchanged — in the source guard `target && typeof target === 'number'` the
value `-5` is truthy and a number, so the target becomes `-5`. -/
theorem updateTarget_negative_cex :
    (updateTarget (.num (-5)) sessionT5).target = -5 ∧ sessionT5.target = 5 := by
  decide

/-- C2 amended: `updateTarget(n)` sets the target to `n` whenever `n` is a
truthy (nonzero) number — including negative numbers such as `-5` — and is a
no-op on `0`, on strings such as `"abc"` and on `undefined`;
`updateTarget(42)` sets it to `42`; in every case no other session field
changes and no error is raised. -/
theorem updateTarget_rule (s : Session) :
    (∀ n : Int, n ≠ 0 → updateTarget (.num n) s = { s with target := n }) ∧
    updateTarget (.num 0) s = s ∧
    (∀ t : String, updateTarget (.str t) s = s) ∧
    updateTarget .undef s = s ∧
    updateTarget (.num 42) s = { s with target := 42 } ∧
    updateTarget (.num (-5)) s = { s with target := -5 } ∧
    updateTarget (.str "abc") s = s := by
  refine ⟨?_, rfl, ?_, rfl, rfl, rfl, rfl⟩
  · intro n hn
    simp [updateTarget, JSVal.truthy, JSVal.isNumber, hn]
  · intro t
    simp [updateTarget, JSVal.isNumber, Bool.and_false]

/-- C2 witness: the amended rule applied at the concrete session with
target 5. -/
theorem updateTarget_rule_witness :
    ((42 : Int) ≠ 0) ∧ updateTarget (.num 42) sessionT5 = { sessionT5 with target := 42 } :=
  ⟨by decide, (updateTarget_rule sessionT5).1 42 (by decide)⟩

/-- C6: `updateRabbitStressTest` is a partial update — omitted (falsy)
arguments keep prior values and provided ones replace them — and it always
resets readiness, clears the compiled plan and resets the counter, while
preserving the snapshot history (and the target) exactly. -/
theorem updateRabbitStressTest_frame (addr : Option String) (excs : Option (List Exchange))
    (binds : Option (List Binding)) (msg : Option Message) (s : Session) :
    updateRabbitStressTest addr excs binds msg s =
      { s with
        rabbitAddress := addr.getD s.rabbitAddress,
        exchanges := (excs.map buildExchangeMap).getD s.exchanges,
        bindings := binds.getD s.bindings,
        readyToTest := false,
        testMessages := [],
        totalMessagesSent := 0,
        message := msg.getD s.message } ∧
    (updateRabbitStressTest addr excs binds msg s).snapShots = s.snapShots ∧
    (updateRabbitStressTest addr excs binds msg s).target = s.target := by
  refine ⟨?_, ?_, ?_⟩ <;>
    (cases addr <;> cases excs <;> cases binds <;> cases msg <;> rfl)

/-- C3 counterexample: compiling twice is not idempotent — with one binding,
one `prepTests` yields a one-entry plan while a second `prepTests` on the
result appends a second copy of the entry. -/
theorem prepTests_not_idempotent_cex :
    Except.map (fun s => s.testMessages) ((prepTests sessionT5).bind prepTests) =
      .ok [entryXk, entryXk] ∧
    Except.map (fun s => s.testMessages) (prepTests sessionT5) = .ok [entryXk] ∧
    (prepTests sessionT5).bind prepTests ≠ prepTests sessionT5 := by
  decide

/-- C3 amended: `prepTests` pushes one entry per binding onto the existing
plan instead of rebuilding it, so a second compile on the unchanged session
succeeds and yields the first plan followed by a second copy of the
per-binding segment (the segment itself is a deterministic function of the
configuration, which the second compile leaves unchanged). -/
theorem prepTests_twice_appends (s s2 : Session) (h : prepTests s = .ok s2) :
    prepTests s2 = .ok { s2 with
      testMessages := s2.testMessages ++ s2.testMessages.drop s.testMessages.length } := by
  unfold prepTests at h ⊢
  cases hb : buildEntries (lookupExc s.exchanges) s.rabbitAddress s.message s.bindings with
  | error es => rw [hb] at h; cases h
  | ok es =>
    rw [hb] at h
    cases h
    dsimp only
    rw [hb]
    dsimp only
    rw [List.drop_left]

/-- C3 witness: the amended statement at the concrete one-binding session. -/
theorem prepTests_twice_appends_witness :
    prepTests sessionT5 = .ok preppedT5 ∧
    prepTests preppedT5 = .ok { preppedT5 with
      testMessages := preppedT5.testMessages ++
        preppedT5.testMessages.drop sessionT5.testMessages.length } :=
  ⟨by decide, prepTests_twice_appends sessionT5 preppedT5 (by decide)⟩

/-- C5 counterexample: with bindings `[X-binding, Y-binding]` and only the
exchange "X" declared, `prepTests` does fail and the session is not marked
ready, but the plan is not left as it was: the entry compiled for the
X-binding has already been pushed before the failure. -/
theorem prepTests_partial_plan_cex :
    Except.mapError (fun s => (s.testMessages, s.readyToTest)) (prepTests sessionMissing) =
      .error ([entryXk], false) ∧
    sessionMissing.testMessages = [] ∧
    [entryXk] ≠ sessionMissing.testMessages := by
  decide

/-- A missing source exchange makes the compile `forEach` throw; the entries
already pushed are exactly those of the longest all-resolvable prefix of the
binding list. -/
theorem buildEntries_error_of_missing (lookup : String → Option Exchange) (a : String)
    (msg : Message) :
    ∀ bs : List Binding, (∃ b ∈ bs, lookup b.source = none) →
      buildEntries lookup a msg bs = .error
        ((bs.takeWhile (fun b => (lookup b.source).isSome)).filterMap
          (fun b => (lookup b.source).map (fun e => entryOfBinding a msg e b))) := by
  intro bs
  induction bs with
  | nil => intro h; simp at h
  | cons b rest ih =>
    intro h
    rw [buildEntries]
    cases hl : lookup b.source with
    | none =>
      simp [List.takeWhile_cons, hl]
    | some e =>
      have hrest : ∃ b2 ∈ rest, lookup b2.source = none := by
        rcases h with ⟨b2, hb2, hnone⟩
        rcases List.mem_cons.mp hb2 with h1 | h1
        · subst h1
          rw [hl] at hnone
          cases hnone
        · exact ⟨b2, h1, hnone⟩
      rw [ih hrest]
      simp [List.takeWhile_cons, List.filterMap_cons, hl]

/-- C5 amended: whenever some binding's source exchange is absent from the
exchange set, `prepTests` fails with an error (the whole compile is rejected:
no complete plan is produced and the session is not marked ready) and the
snapshot history is untouched — but the compile is not transactional: the
entries compiled for the bindings preceding the offending one remain
appended to the session's plan. -/
theorem prepTests_missing_source (s : Session)
    (h : ∃ b ∈ s.bindings, lookupExc s.exchanges b.source = none) :
    ∃ s2, prepTests s = .error s2 ∧
      s2.readyToTest = s.readyToTest ∧
      s2.snapShots = s.snapShots ∧
      s2.testMessages = s.testMessages ++
        ((s.bindings.takeWhile (fun b => (lookupExc s.exchanges b.source).isSome)).filterMap
          (fun b => (lookupExc s.exchanges b.source).map
            (fun e => entryOfBinding s.rabbitAddress s.message e b))) := by
  unfold prepTests
  rw [buildEntries_error_of_missing _ _ _ _ h]
  exact ⟨_, rfl, rfl, rfl, rfl⟩

/-- C5 witness: the amended statement at the concrete session whose second
binding references the undeclared exchange "Y". -/
theorem prepTests_missing_source_witness :
    (∃ b ∈ sessionMissing.bindings, lookupExc sessionMissing.exchanges b.source = none) ∧
    (∃ s2, prepTests sessionMissing = .error s2 ∧
      s2.readyToTest = sessionMissing.readyToTest ∧
      s2.snapShots = sessionMissing.snapShots ∧
      s2.testMessages = sessionMissing.testMessages ++
        ((sessionMissing.bindings.takeWhile
            (fun b => (lookupExc sessionMissing.exchanges b.source).isSome)).filterMap
          (fun b => (lookupExc sessionMissing.exchanges b.source).map
            (fun e => entryOfBinding sessionMissing.rabbitAddress sessionMissing.message e b)))) :=
  ⟨by decide, prepTests_missing_source sessionMissing (by decide)⟩

/-- C4 counterexample: the counter is not reset to 0 at the start of a run,
and a run's published count is not independent of leftovers.  A publish
failure leaves the counter at 2; the next round-robin run over the same
one-entry plan with target 3 publishes only 2 further messages (and its
snapshot reports 4), while the identical configuration started from a zero
counter publishes 4. -/
theorem counter_not_reset_at_start_cex :
    prepTests sessionT3 = .ok preppedT3 ∧
    runTest failFrom2 zeroStream zeroStream 10 "round-robin" preppedT3 =
      some { session := abortedT3, published := [pubXk, pubXk], ok := false } ∧
    (runTest allOk zeroStream zeroStream 10 "round-robin" abortedT3).map
        (fun r => (r.ok, r.published.length,
          r.session.snapShots.map SnapShot.totalMessagesSent)) =
      some (true, 2, [4]) ∧
    (runTest allOk zeroStream zeroStream 10 "round-robin" preppedT3).map
        (fun r => (r.ok, r.published.length,
          r.session.snapShots.map SnapShot.totalMessagesSent)) =
      some (true, 4, [4]) := by
  decide

/-- C4 amended: during a run `totalMessagesSent` grows by exactly one per
successful publish (final counter = starting counter + number of published
messages, never decremented), and it is reset to 0 at the END of a completed
run — after the snapshot captures it — not at the start; a run aborted by a
publish failure keeps the partial count, so only a run following a completed
run is guaranteed to start from 0. -/
theorem counter_once_per_publish (o : Nat → Bool) (randoms elapsed : Nat → Nat)
    (fuel : Nat) (type : String) (s : Session) (r : RunResult)
    (hready : s.readyToTest = true)
    (h : runTest o randoms elapsed fuel type s = some r) :
    (r.ok = true → r.session.totalMessagesSent = 0 ∧
      ∃ snap, r.session.snapShots = s.snapShots ++ [snap] ∧
        snap.totalMessagesSent = s.totalMessagesSent + r.published.length) ∧
    (r.ok = false →
      r.session.totalMessagesSent = s.totalMessagesSent + r.published.length ∧
      r.session.snapShots = s.snapShots) := by
  obtain ⟨st2, htr, hok, herr⟩ := runTest_inv o randoms elapsed fuel type s r hready h
  constructor
  · intro hk
    obtain ⟨hsl, hz, hsnap⟩ := hok hk
    have hg := strategyLoop_gain o randoms elapsed fuel type s.testMessages s.target _ _ hsl
    simp [stGain, exState] at hg
    refine ⟨hz, _, hsnap, ?_⟩
    show st2.count = s.totalMessagesSent + r.published.length
    rw [← htr]
    omega
  · intro hk
    obtain ⟨hsl, hcnt, hsnap⟩ := herr hk
    have hg := strategyLoop_gain o randoms elapsed fuel type s.testMessages s.target _ _ hsl
    simp [stGain, exState] at hg
    refine ⟨?_, hsnap⟩
    rw [hcnt, ← htr]
    omega

/-- The concrete outcome of the aborted run used by the C4 witness. -/
def c4AbortedRun : RunResult :=
  { session := abortedT3, published := [pubXk, pubXk], ok := false }

/-- C4 witness: the amended invariant at the concrete aborted run. -/
theorem counter_once_per_publish_witness :
    (preppedT3.readyToTest = true ∧
     runTest failFrom2 zeroStream zeroStream 10 "round-robin" preppedT3 =
       some c4AbortedRun) ∧
    ((c4AbortedRun.ok = true → c4AbortedRun.session.totalMessagesSent = 0 ∧
      ∃ snap, c4AbortedRun.session.snapShots = preppedT3.snapShots ++ [snap] ∧
        snap.totalMessagesSent =
          preppedT3.totalMessagesSent + c4AbortedRun.published.length) ∧
     (c4AbortedRun.ok = false →
      c4AbortedRun.session.totalMessagesSent =
        preppedT3.totalMessagesSent + c4AbortedRun.published.length ∧
      c4AbortedRun.session.snapShots = preppedT3.snapShots)) :=
  ⟨⟨by decide, by decide⟩,
   counter_once_per_publish failFrom2 zeroStream zeroStream 10 "round-robin" preppedT3
     c4AbortedRun (by decide) (by decide)⟩

/-- C7: a run whose publish fails aborts and rethrows to the caller
(`ok = false`); no snapshot is appended for the aborted run, and
`totalMessagesSent` retains exactly the partial count accumulated up to the
failure point (starting counter plus one per successful publish). -/
theorem publish_failure_aborts (o : Nat → Bool) (randoms elapsed : Nat → Nat)
    (fuel : Nat) (type : String) (s : Session) (r : RunResult)
    (hready : s.readyToTest = true)
    (h : runTest o randoms elapsed fuel type s = some r)
    (hfail : r.ok = false) :
    r.session.snapShots = s.snapShots ∧
    r.session.totalMessagesSent = s.totalMessagesSent + r.published.length := by
  obtain ⟨st2, htr, _, herr⟩ := runTest_inv o randoms elapsed fuel type s r hready h
  obtain ⟨hsl, hcnt, hsnap⟩ := herr hfail
  have hg := strategyLoop_gain o randoms elapsed fuel type s.testMessages s.target _ _ hsl
  simp [stGain, exState] at hg
  refine ⟨hsnap, ?_⟩
  rw [hcnt, ← htr]
  omega

/-- The concrete outcome of the aborted run used by the C7 witness. -/
def c7AbortedRun : RunResult :=
  { session := { preppedT5 with totalMessagesSent := 2 },
    published := [pubXk, pubXk], ok := false }

/-- C7 witness: the abort behaviour at a concrete run whose channel dies
after two publishes. -/
theorem publish_failure_aborts_witness :
    (preppedT5.readyToTest = true ∧
     runTest failFrom2 zeroStream zeroStream 10 "round-robin" preppedT5 =
       some c7AbortedRun ∧
     c7AbortedRun.ok = false) ∧
    (c7AbortedRun.session.snapShots = preppedT5.snapShots ∧
     c7AbortedRun.session.totalMessagesSent =
       preppedT5.totalMessagesSent + c7AbortedRun.published.length) :=
  ⟨⟨by decide, by decide, by decide⟩,
   publish_failure_aborts failFrom2 zeroStream zeroStream 10 "round-robin" preppedT5
     c7AbortedRun (by decide) (by decide) (by decide)⟩

/-- C1: for the three count-bounded strategies over a non-empty plan, with
the counter starting at 0 and every publish succeeding, `runTest` terminates
normally and the run's final count — captured in the appended snapshot just
before the post-run reset — strictly exceeds the target; round-robin
overshoots by at most one plan length, while random and single-binding stop
at exactly `target + 1`. -/
theorem runTest_count_bounded_overshoot (s : Session) (randoms elapsed : Nat → Nat)
    (hready : s.readyToTest = true) (hplan : s.testMessages ≠ [])
    (hcount : s.totalMessagesSent = 0) (htarget : 0 ≤ s.target) :
    (∃ r snap,
      runTest (fun _ => true) randoms elapsed (s.target.toNat + 2) "round-robin" s = some r ∧
      r.ok = true ∧ r.session.snapShots = s.snapShots ++ [snap] ∧
      s.target < snap.totalMessagesSent ∧
      snap.totalMessagesSent ≤ s.target + s.testMessages.length) ∧
    (∃ r snap,
      runTest (fun _ => true) randoms elapsed (s.target.toNat + 2) "random" s = some r ∧
      r.ok = true ∧ r.session.snapShots = s.snapShots ++ [snap] ∧
      snap.totalMessagesSent = s.target + 1) ∧
    (∃ r snap,
      runTest (fun _ => true) randoms elapsed (s.target.toNat + 2) "single-binding" s = some r ∧
      r.ok = true ∧ r.session.snapShots = s.snapShots ++ [snap] ∧
      snap.totalMessagesSent = s.target + 1) := by
  refine ⟨?_, ?_, ?_⟩
  · obtain ⟨st2, hrun, hgt, hle, _⟩ := rrLoop_allOk s.testMessages s.target hplan
      (s.target.toNat + 2) { count := s.totalMessagesSent, pubIndex := 0, trace := [] }
      (by omega) (by dsimp only; omega)
    refine ⟨_, _,
      runTest_eq_of_ok _ _ _ _ _ _ _ hready (by rw [strategyLoop_rr]; exact hrun),
      rfl, rfl, ?_, ?_⟩
    · exact hgt
    · exact hle (by dsimp only; omega)
  · obtain ⟨st2, hrun, hcnt⟩ := randomLoop_allOk randoms s.testMessages s.target hplan
      (s.target.toNat + 2) 0 { count := s.totalMessagesSent, pubIndex := 0, trace := [] }
      (by dsimp only; omega) (by dsimp only; omega)
    exact ⟨_, _,
      runTest_eq_of_ok _ _ _ _ _ _ _ hready (by rw [strategyLoop_random]; exact hrun),
      rfl, rfl, hcnt⟩
  · have hlen : 0 < s.testMessages.length := List.length_pos.mpr hplan
    have hidx : randoms 0 % s.testMessages.length < s.testMessages.length :=
      Nat.mod_lt _ hlen
    obtain ⟨st2, hrun, hcnt, _⟩ := sbLoop_allOk s.testMessages s.target
      (randoms 0 % s.testMessages.length) _ (List.getElem?_eq_getElem hidx)
      (s.target.toNat + 2) { count := s.totalMessagesSent, pubIndex := 0, trace := [] }
      (by dsimp only; omega) (by dsimp only; omega)
    exact ⟨_, _,
      runTest_eq_of_ok _ _ _ _ _ _ _ hready (by rw [strategyLoop_sb]; exact hrun),
      rfl, rfl, hcnt⟩

/-- C1 witness: the overshoot bounds at the concrete one-binding session with
target 5. -/
theorem runTest_count_bounded_overshoot_witness :
    (preppedT5.readyToTest = true ∧ preppedT5.testMessages ≠ [] ∧
     preppedT5.totalMessagesSent = 0 ∧ 0 ≤ preppedT5.target) ∧
    ((∃ r snap,
      runTest (fun _ => true) zeroStream zeroStream (preppedT5.target.toNat + 2)
          "round-robin" preppedT5 = some r ∧
      r.ok = true ∧ r.session.snapShots = preppedT5.snapShots ++ [snap] ∧
      preppedT5.target < snap.totalMessagesSent ∧
      snap.totalMessagesSent ≤ preppedT5.target + preppedT5.testMessages.length) ∧
    (∃ r snap,
      runTest (fun _ => true) zeroStream zeroStream (preppedT5.target.toNat + 2)
          "random" preppedT5 = some r ∧
      r.ok = true ∧ r.session.snapShots = preppedT5.snapShots ++ [snap] ∧
      snap.totalMessagesSent = preppedT5.target + 1) ∧
    (∃ r snap,
      runTest (fun _ => true) zeroStream zeroStream (preppedT5.target.toNat + 2)
          "single-binding" preppedT5 = some r ∧
      r.ok = true ∧ r.session.snapShots = preppedT5.snapShots ++ [snap] ∧
      snap.totalMessagesSent = preppedT5.target + 1)) :=
  ⟨⟨by decide, by decide, by decide, by decide⟩,
   runTest_count_bounded_overshoot preppedT5 zeroStream zeroStream
     (by decide) (by decide) (by decide) (by decide)⟩

/-- C9: in a single-binding run over a non-empty plan (counter starting at 0,
every publish succeeding), exactly one plan index is drawn at run start
(`randoms 0` reduced modulo the plan length) and every message published in
the run is that same entry; the run sends exactly `target + 1` messages. -/
theorem singleBinding_one_entry (s : Session) (randoms elapsed : Nat → Nat)
    (hready : s.readyToTest = true) (hplan : s.testMessages ≠ [])
    (hcount : s.totalMessagesSent = 0) (htarget : 0 ≤ s.target) :
    ∃ r snap m,
      s.testMessages[randoms 0 % s.testMessages.length]? = some m ∧
      runTest (fun _ => true) randoms elapsed (s.target.toNat + 2)
          "single-binding" s = some r ∧
      r.ok = true ∧
      r.published = List.replicate (s.target.toNat + 1) (pubRecOf m) ∧
      (∀ p ∈ r.published, p = pubRecOf m) ∧
      r.session.snapShots = s.snapShots ++ [snap] ∧
      snap.totalMessagesSent = s.target + 1 := by
  have hlen : 0 < s.testMessages.length := List.length_pos.mpr hplan
  have hidx : randoms 0 % s.testMessages.length < s.testMessages.length :=
    Nat.mod_lt _ hlen
  have hm := List.getElem?_eq_getElem hidx
  obtain ⟨st2, hrun, hcnt, htr⟩ := sbLoop_allOk s.testMessages s.target
    (randoms 0 % s.testMessages.length) _ hm (s.target.toNat + 2)
    { count := s.totalMessagesSent, pubIndex := 0, trace := [] }
    (by dsimp only; omega) (by dsimp only; omega)
  have hrep : st2.trace = List.replicate (s.target.toNat + 1)
      (pubRecOf (s.testMessages[randoms 0 % s.testMessages.length])) := by
    rw [htr]
    dsimp only
    have hk : (s.target + 1 - s.totalMessagesSent).toNat = s.target.toNat + 1 := by omega
    rw [hk]
    simp
  refine ⟨_, _, _, hm,
    runTest_eq_of_ok _ _ _ _ _ _ _ hready (by rw [strategyLoop_sb]; exact hrun),
    rfl, ?_, ?_, rfl, ?_⟩
  · exact hrep
  · intro p hp
    rw [hrep] at hp
    exact List.eq_of_mem_replicate hp
  · exact hcnt

/-- C9 witness: the single-binding guarantee at the concrete one-binding
session with target 3. -/
theorem singleBinding_one_entry_witness :
    (preppedT3.readyToTest = true ∧ preppedT3.testMessages ≠ [] ∧
     preppedT3.totalMessagesSent = 0 ∧ 0 ≤ preppedT3.target) ∧
    (∃ r snap m,
      preppedT3.testMessages[zeroStream 0 % preppedT3.testMessages.length]? = some m ∧
      runTest (fun _ => true) zeroStream zeroStream (preppedT3.target.toNat + 2)
          "single-binding" preppedT3 = some r ∧
      r.ok = true ∧
      r.published = List.replicate (preppedT3.target.toNat + 1) (pubRecOf m) ∧
      (∀ p ∈ r.published, p = pubRecOf m) ∧
      r.session.snapShots = preppedT3.snapShots ++ [snap] ∧
      snap.totalMessagesSent = preppedT3.target + 1) :=
  ⟨⟨by decide, by decide, by decide, by decide⟩,
   singleBinding_one_entry preppedT3 zeroStream zeroStream
     (by decide) (by decide) (by decide) (by decide)⟩

/-- C10: for a ready session whose counter does not already exceed the
target and an always-succeeding channel, the count-bounded round-robin run
terminates if and only if the compiled plan is non-empty: each pass over a
non-empty plan strictly increases the counter until it exceeds the target,
while over an empty plan a pass publishes nothing and the loop condition
never changes. -/
theorem roundRobin_terminates_iff (s : Session) (randoms elapsed : Nat → Nat)
    (hready : s.readyToTest = true) (hcount : s.totalMessagesSent ≤ s.target) :
    (∃ fuel r, runTest (fun _ => true) randoms elapsed fuel "round-robin" s = some r) ↔
      s.testMessages ≠ [] := by
  constructor
  · rintro ⟨fuel, r, hr⟩
    intro hnil
    have hnone : runTest (fun _ => true) randoms elapsed fuel "round-robin" s = none := by
      apply runTest_eq_of_none _ _ _ _ _ _ hready
      rw [strategyLoop_rr, hnil]
      exact rrLoop_nil _ s.target fuel _ hcount
    rw [hnone] at hr
    cases hr
  · intro hplan
    obtain ⟨st2, hrun, _, _, _⟩ := rrLoop_allOk s.testMessages s.target hplan
      ((s.target - s.totalMessagesSent).toNat + 2)
      { count := s.totalMessagesSent, pubIndex := 0, trace := [] }
      (by omega) (by dsimp only; omega)
    exact ⟨_, _,
      runTest_eq_of_ok _ _ _ _ _ _ _ hready (by rw [strategyLoop_rr]; exact hrun)⟩

/-- C10 witness: the termination equivalence at the concrete ready session
with a one-entry plan. -/
theorem roundRobin_terminates_iff_witness :
    (preppedT5.readyToTest = true ∧ preppedT5.totalMessagesSent ≤ preppedT5.target) ∧
    ((∃ fuel r, runTest (fun _ => true) zeroStream zeroStream fuel
        "round-robin" preppedT5 = some r) ↔ preppedT5.testMessages ≠ []) :=
  ⟨⟨by decide, by decide⟩,
   roundRobin_terminates_iff preppedT5 zeroStream zeroStream (by decide) (by decide)⟩

end StressTest
